import Mathlib

/-!
Shallow embedding of `src/glucogard/ai_engine/main.py` (glucogard risk
inference pipeline): input schema, fixed-boundary binning via `pd.cut`,
feature-vector assembly, scaler/model adapter, and the response mapper.
Floats are modelled as exact rationals; integer-typed fields as `ℤ`.
-/

namespace Glucogard

/-- The `DiabetesInput` request schema (pydantic `BaseModel` in
`main.py`): ten raw patient fields.  Fields typed `float` in the source
become `ℚ`, fields typed `int` become `ℤ`. -/
structure DiabetesInput where
  age : ℚ
  bmi : ℚ
  weight : ℚ
  height : ℚ
  systolic_bp : ℚ
  family_history : ℤ
  physical_activity : ℤ
  diet_quality : ℚ
  location : ℤ
  smoking : ℤ
deriving Repr, DecidableEq

/-- Embeds `pd.cut(bmi, bins=[0, 18.5, 25, 30, 100], labels=[0,1,2,3])` followed by
`.cat.add_categories(-1).fillna(-1).astype(int)`.  `pd.cut` is right-closed
(`right=True` default): intervals `(0, 18.5]`, `(18.5, 25]`, `(25, 30]`,
`(30, 100]`; any value outside `(0, 100]` falls in no bin, becomes `NaN`,
and `fillna(-1)` turns it into `-1`. -/
def bmi_category (bmi : ℚ) : ℤ :=
  if bmi ≤ 0 then -1
  else if bmi ≤ 18.5 then 0
  else if bmi ≤ 25 then 1
  else if bmi ≤ 30 then 2
  else if bmi ≤ 100 then 3
  else -1

/-- Embeds `pd.cut(age, bins=[0, 30, 45, 60, 100], labels=[0,1,2,3])` followed by
`.cat.add_categories(-1).fillna(-1).astype(int)`: right-closed bins
`(0, 30]`, `(30, 45]`, `(45, 60]`, `(60, 100]`, sentinel `-1` outside
`(0, 100]`. -/
def age_group (age : ℚ) : ℤ :=
  if age ≤ 0 then -1
  else if age ≤ 30 then 0
  else if age ≤ 45 then 1
  else if age ≤ 60 then 2
  else if age ≤ 100 then 3
  else -1

/-- Embeds the single-row selection `patient_data[feature_columns]` with
`feature_columns = ['age', 'bmi', 'weight', 'height', 'systolic_bp',
'family_history', 'physical_activity', 'diet_quality', 'location',
'smoking', 'bmi_category', 'age_group']`: the twelve features in the
fixed order handed to the scaler. -/
def feature_vector (d : DiabetesInput) : List ℚ :=
  [d.age, d.bmi, d.weight, d.height, d.systolic_bp,
   (d.family_history : ℚ), (d.physical_activity : ℚ), d.diet_quality,
   (d.location : ℚ), (d.smoking : ℚ),
   ((bmi_category d.bmi : ℤ) : ℚ), ((age_group d.age : ℤ) : ℚ)]

/-- Error conditions a request handler run can surface: a pydantic
validation failure at the boundary (HTTP 422/client error) or a Python
`IndexError` escaping from the response-mapping expression. -/
inductive ApiError where
  | validationError : ApiError
  | indexError : ApiError
deriving Repr, DecidableEq

/-- Python list subscription `l[i]`: a non-negative index reads from the
front, a negative index `i` with `-len ≤ i` reads `l[len + i]`, and any
other index raises `IndexError` (modelled as `none`). -/
def pyListGet {α : Type} (l : List α) (i : ℤ) : Option α :=
  if 0 ≤ i then l.get? i.toNat
  else if 0 ≤ i + l.length then l.get? (i + (l.length : ℤ)).toNat
  else none

/-- The fixed table `risk_category_keys` from `predict_risk`. -/
def risk_category_keys : List String :=
  ["non-diabetic", "low", "moderate", "high", "critical"]

/-- The fixed table `risk_category_display` from `predict_risk`. -/
def risk_category_display : List String :=
  ["Non-diabetic", "Low Risk", "Moderate Risk", "High Risk", "Critical Risk"]

/-- The JSON body returned by `predict_risk`: risk key, integer class
index, and the probability mapping (a Python dict built with distinct
label keys, modelled as an association list in insertion order). -/
structure PredictionResponse where
  risk_category : String
  risk_level : ℤ
  probabilities : List (String × ℚ)
deriving Repr, DecidableEq

/-- Embeds the dict comprehension
`{risk_category_display[i]: float(prob) for i, prob in enumerate(probability)}`
from index `i` on: each position of the probability vector is paired with
the display label at the same index; `risk_category_display[i]` raises
`IndexError` when `i` runs past the five labels. -/
def buildProbsFrom (i : ℕ) (probs : List ℚ) :
    Except ApiError (List (String × ℚ)) :=
  match probs with
  | [] => Except.ok []
  | p :: rest =>
    match pyListGet risk_category_display (i : ℤ) with
    | none => Except.error ApiError.indexError
    | some lab => (buildProbsFrom (i + 1) rest).map (fun tl => (lab, p) :: tl)

/-- The full probability dict of the response, starting at index 0. -/
def buildProbs (probs : List ℚ) : Except ApiError (List (String × ℚ)) :=
  buildProbsFrom 0 probs

/-- Embeds the return expression of `predict_risk`: look `prediction` up
in `risk_category_keys` (Python list indexing, so a raised `IndexError`
becomes `Except.error`, unguarded as in the source, which has no
try/except), set `risk_level = int(prediction)`, and build the
probability dict. -/
def mapResponse (prediction : ℤ) (probability : List ℚ) :
    Except ApiError PredictionResponse :=
  match pyListGet risk_category_keys prediction with
  | none => Except.error ApiError.indexError
  | some key =>
    match buildProbs probability with
    | Except.error e => Except.error e
    | Except.ok ps => Except.ok ⟨key, prediction, ps⟩

/-- The loaded model artifact (`scaler` and `best_model` from the joblib
bundle), abstracted as its three operations used by `predict_risk`:
`scaler.transform` (on one row), `model.predict` (first entry) and
`model.predict_proba` (first row). -/
structure ModelArtifact where
  transform : List ℚ → List ℚ
  predict : List ℚ → ℤ
  predict_proba : List ℚ → List ℚ

/-- Embeds the handler `predict_risk` on an already-validated
`DiabetesInput`: derive the two binned features, assemble the 12-feature
row, scale it, classify, and map the result to the response body. -/
def predict_risk (m : ModelArtifact) (d : DiabetesInput) :
    Except ApiError PredictionResponse :=
  let scaled := m.transform (feature_vector d)
  mapResponse (m.predict scaled) (m.predict_proba scaled)

/-- One raw JSON field of the incoming request body, as far as pydantic
coercion cares: absent, a numeric value, or a value that does not coerce
to a number (e.g. a non-numeric string). -/
inductive RawField where
  | missing : RawField
  | numeric : ℚ → RawField
  | nonNumeric : RawField
deriving Repr, DecidableEq

/-- The raw request body: the ten fields of the schema, each possibly
missing or malformed, before validation. -/
structure RawInput where
  age : RawField
  bmi : RawField
  weight : RawField
  height : RawField
  systolic_bp : RawField
  family_history : RawField
  physical_activity : RawField
  diet_quality : RawField
  location : RawField
  smoking : RawField
deriving Repr, DecidableEq

/-- A pydantic validation failure, carrying the offending field name. -/
structure ValidationFailure where
  field : String
deriving Repr, DecidableEq

/-- Modelled from the spec: pydantic coercion of one field declared
`float` (the validation logic lives in the pydantic library, not in this
repository): the field must be present and numeric. -/
def coerceFloat (name : String) (f : RawField) : Except ValidationFailure ℚ :=
  match f with
  | RawField.numeric q => Except.ok q
  | _ => Except.error ⟨name⟩

/-- Modelled from the spec: pydantic coercion of one field declared
`int`: the field must be present, numeric and integral. -/
def coerceInt (name : String) (f : RawField) : Except ValidationFailure ℤ :=
  match f with
  | RawField.numeric q => if q.den = 1 then Except.ok q.num else Except.error ⟨name⟩
  | _ => Except.error ⟨name⟩

/-- Modelled from the spec: validation of the request body against the
`DiabetesInput` schema, performed by FastAPI/pydantic before the handler
body runs: every field must be present and coercible to its declared
type, otherwise a `ValidationFailure` is raised. -/
def parseDiabetesInput (r : RawInput) : Except ValidationFailure DiabetesInput := do
  let age ← coerceFloat "age" r.age
  let bmi ← coerceFloat "bmi" r.bmi
  let weight ← coerceFloat "weight" r.weight
  let height ← coerceFloat "height" r.height
  let systolic_bp ← coerceFloat "systolic_bp" r.systolic_bp
  let family_history ← coerceInt "family_history" r.family_history
  let physical_activity ← coerceInt "physical_activity" r.physical_activity
  let diet_quality ← coerceFloat "diet_quality" r.diet_quality
  let location ← coerceInt "location" r.location
  let smoking ← coerceInt "smoking" r.smoking
  return ⟨age, bmi, weight, height, systolic_bp, family_history,
          physical_activity, diet_quality, location, smoking⟩

/-- The full endpoint: validate the raw body; on failure return the
validation error to the caller (the handler body never runs); on success
run `predict_risk`. -/
def handleRequest (m : ModelArtifact) (r : RawInput) :
    Except ApiError PredictionResponse :=
  match parseDiabetesInput r with
  | Except.error _ => Except.error ApiError.validationError
  | Except.ok d => predict_risk m d

/-- A concrete stub artifact for witnesses: identity scaler, constant
class 2, fixed probability vector. -/
def stubArtifact : ModelArtifact :=
  ⟨id, fun _ => 2, fun _ => [1/10, 1/5, 2/5, 1/5, 1/10]⟩

/-- The worked example input from the spec, already validated. -/
def exampleInput : DiabetesInput :=
  ⟨45, 24.9, 70, 170, 120, 1, 1, 0.7, 0, 0⟩

/-- A second input agreeing with `exampleInput` on `age` and `bmi` only. -/
def exampleInputAlt : DiabetesInput :=
  ⟨45, 24.9, 80, 160, 130, 0, 0, 1/5, 1, 1⟩

/-- A concrete probability vector (a genuine distribution). -/
def exampleProbs : List ℚ := [1/10, 1/5, 2/5, 1/5, 1/10]

/-- The response `mapResponse 2 exampleProbs` produces. -/
def exampleResponse : PredictionResponse :=
  ⟨"moderate", 2,
   [("Non-diabetic", 1/10), ("Low Risk", 1/5), ("Moderate Risk", 2/5),
    ("High Risk", 1/5), ("Critical Risk", 1/10)]⟩

/-- A raw request body whose `age` field is not numeric (e.g. the string
"abc"), all other fields well formed. -/
def malformedInput : RawInput :=
  ⟨RawField.nonNumeric, RawField.numeric 24.9, RawField.numeric 70,
   RawField.numeric 170, RawField.numeric 120, RawField.numeric 1,
   RawField.numeric 1, RawField.numeric 0.7, RawField.numeric 0,
   RawField.numeric 0⟩

end Glucogard

namespace Glucogard

/-- C1: BMI binning is right-closed with boundaries 18.5, 25, 30 (first
bin open at 0): `(0,18.5] → 0`, `(18.5,25] → 1`, `(25,30] → 2`,
`(30,100] → 3`; in particular `bmi = 18.5 → 0` and `bmi = 25 → 1`.  Age
uses the identical right-closed logic with boundaries 30, 45, 60, 100. -/
theorem bmi_age_binning_right_closed (b a : ℚ) :
    (bmi_category b = 0 ↔ 0 < b ∧ b ≤ 18.5) ∧
    (bmi_category b = 1 ↔ 18.5 < b ∧ b ≤ 25) ∧
    (bmi_category b = 2 ↔ 25 < b ∧ b ≤ 30) ∧
    (bmi_category b = 3 ↔ 30 < b ∧ b ≤ 100) ∧
    bmi_category 18.5 = 0 ∧ bmi_category 25 = 1 ∧
    (age_group a = 0 ↔ 0 < a ∧ a ≤ 30) ∧
    (age_group a = 1 ↔ 30 < a ∧ a ≤ 45) ∧
    (age_group a = 2 ↔ 45 < a ∧ a ≤ 60) ∧
    (age_group a = 3 ↔ 60 < a ∧ a ≤ 100) := by
  refine ⟨?_, ?_, ?_, ?_, by norm_num [bmi_category], by norm_num [bmi_category],
          ?_, ?_, ?_, ?_⟩ <;>
  · simp only [bmi_category, age_group]
    split_ifs with h1 h2 h3 h4 h5 <;>
      constructor <;> intro hh <;>
      first
        | omega
        | exact hh.elim
        | (constructor <;> linarith)
        | (exfalso; linarith [hh.1, hh.2])

/-- C2: for every valid `DiabetesInput` the assembled feature vector has
exactly 12 entries in the fixed order `[age, bmi, weight, height,
systolic_bp, family_history, physical_activity, diet_quality, location,
smoking, bmi_category, age_group]`, the ten raw fields passed through
unchanged. -/
theorem feature_vector_shape (d : DiabetesInput) :
    (feature_vector d).length = 12 ∧
    (feature_vector d).get? 0 = some d.age ∧
    (feature_vector d).get? 1 = some d.bmi ∧
    (feature_vector d).get? 2 = some d.weight ∧
    (feature_vector d).get? 3 = some d.height ∧
    (feature_vector d).get? 4 = some d.systolic_bp ∧
    (feature_vector d).get? 5 = some (d.family_history : ℚ) ∧
    (feature_vector d).get? 6 = some (d.physical_activity : ℚ) ∧
    (feature_vector d).get? 7 = some d.diet_quality ∧
    (feature_vector d).get? 8 = some (d.location : ℚ) ∧
    (feature_vector d).get? 9 = some (d.smoking : ℚ) ∧
    (feature_vector d).get? 10 = some ((bmi_category d.bmi : ℤ) : ℚ) ∧
    (feature_vector d).get? 11 = some ((age_group d.age : ℤ) : ℚ) := by
  simp [feature_vector]

/-- C6: the derived categorical features always stay in the
sentinel-extended range `{-1,0,1,2,3}`, and any `bmi` or `age` outside
`(0,100]` (including values ≤ 0 and > 100) maps to the sentinel `-1`
without failing (both deriving functions are total). -/
theorem derived_features_sentinel_range (b a : ℚ) :
    bmi_category b ∈ ([-1, 0, 1, 2, 3] : List ℤ) ∧
    age_group a ∈ ([-1, 0, 1, 2, 3] : List ℤ) ∧
    (bmi_category b = -1 ↔ b ≤ 0 ∨ 100 < b) ∧
    (age_group a = -1 ↔ a ≤ 0 ∨ 100 < a) := by
  refine ⟨?_, ?_, ?_, ?_⟩ <;>
  · simp only [bmi_category, age_group]
    split_ifs with h1 h2 h3 h4 h5 <;>
      first
        | decide
        | (constructor <;> intro hh <;>
            first
              | omega
              | (left; linarith)
              | (right; linarith)
              | (exfalso; rcases hh with hh | hh <;> linarith))

/-- C7: on the spec's worked example input the pipeline derives
`bmi_category = 1` and `age_group = 1` and assembles exactly the feature
vector `[45, 24.9, 70, 170, 120, 1, 1, 0.7, 0, 0, 1, 1]` handed to the
scaler and model. -/
theorem end_to_end_example_features :
    bmi_category (24.9 : ℚ) = 1 ∧ age_group (45 : ℚ) = 1 ∧
    feature_vector exampleInput =
      [45, 24.9, 70, 170, 120, 1, 1, 0.7, 0, 0, 1, 1] := by
  norm_num [feature_vector, bmi_category, age_group, exampleInput]

/-- C9: the pipeline is deterministic and stateless: with the same loaded
artifact, two calls on identical inputs return identical outputs (the
handler is a pure function of the artifact and the request alone). -/
theorem predict_risk_deterministic (m : ModelArtifact) (d₁ d₂ : DiabetesInput)
    (h : d₁ = d₂) : predict_risk m d₁ = predict_risk m d₂ := by
  rw [h]

/-- Witness for C9 at the spec's example input and the stub artifact. -/
theorem predict_risk_deterministic_witness :
    predict_risk stubArtifact exampleInput = predict_risk stubArtifact exampleInput :=
  predict_risk_deterministic stubArtifact exampleInput exampleInput rfl

/-- C10: the derived features depend only on `bmi` and `age`: two valid
inputs agreeing on `bmi` and `age` but arbitrary elsewhere get equal
`bmi_category` and equal `age_group` (also at positions 10 and 11 of the
assembled feature vector). -/
theorem derived_features_only_from_bmi_age (d₁ d₂ : DiabetesInput)
    (hb : d₁.bmi = d₂.bmi) (ha : d₁.age = d₂.age) :
    bmi_category d₁.bmi = bmi_category d₂.bmi ∧
    age_group d₁.age = age_group d₂.age ∧
    (feature_vector d₁).get? 10 = (feature_vector d₂).get? 10 ∧
    (feature_vector d₁).get? 11 = (feature_vector d₂).get? 11 := by
  simp [feature_vector, hb, ha]

/-- Witness for C10: `exampleInput` and `exampleInputAlt` share `bmi` and
`age` but differ in all eight other fields. -/
theorem derived_features_only_from_bmi_age_witness :
    bmi_category exampleInput.bmi = bmi_category exampleInputAlt.bmi ∧
    age_group exampleInput.age = age_group exampleInputAlt.age ∧
    (feature_vector exampleInput).get? 10 = (feature_vector exampleInputAlt).get? 10 ∧
    (feature_vector exampleInput).get? 11 = (feature_vector exampleInputAlt).get? 11 :=
  derived_features_only_from_bmi_age exampleInput exampleInputAlt rfl rfl

/-- C3 (code bug): an out-of-range class index is NOT surfaced as a
guarded internal error.  A negative index in `[-5,-1]` silently succeeds
through Python negative list indexing (index `-1` returns a 200 response
labelled "critical", no error at all), and an index ≥ 5 raises an
`IndexError` that no try/except in `predict_risk` guards. -/
theorem out_of_range_index_not_guarded :
    mapResponse (-1) exampleProbs =
      Except.ok ⟨"critical", -1,
        [("Non-diabetic", 1/10), ("Low Risk", 1/5), ("Moderate Risk", 2/5),
         ("High Risk", 1/5), ("Critical Risk", 1/10)]⟩ ∧
    mapResponse 5 exampleProbs = Except.error ApiError.indexError := by
  constructor <;> rfl

/-- C4: in every successful response, `risk_level` is exactly the class
index the classifier returned and `risk_category` is the entry of the
fixed key table at position `risk_level` (list subscription with the
source's Python semantics). -/
theorem response_category_level_consistent (p : ℤ) (probs : List ℚ)
    (resp : PredictionResponse) (h : mapResponse p probs = Except.ok resp) :
    resp.risk_level = p ∧
    pyListGet risk_category_keys resp.risk_level = some resp.risk_category := by
  unfold mapResponse at h
  rcases hk : pyListGet risk_category_keys p with _ | key <;> rw [hk] at h
  · simp at h
  · rcases hb : buildProbs probs with e | ps <;> rw [hb] at h
    · simp at h
    · simp only [Except.ok.injEq] at h
      subst h
      exact ⟨rfl, hk⟩

/-- Witness for C4 at class index 2 and the example distribution. -/
theorem response_category_level_consistent_witness :
    exampleResponse.risk_level = 2 ∧
    pyListGet risk_category_keys exampleResponse.risk_level =
      some exampleResponse.risk_category :=
  response_category_level_consistent 2 exampleProbs exampleResponse (by rfl)

/-- C5: for every classifier output (a five-entry probability vector with
entries in `[0,1]` summing to 1), the probability mapping of the response
has exactly the five fixed display-label keys, each paired positionally
with the corresponding entry of the probability vector, every value in
`[0,1]`, the values summing to 1 — the full distribution, not a top-1. -/
theorem probabilities_full_distribution (probs : List ℚ)
    (h5 : probs.length = 5) (hrange : ∀ q ∈ probs, 0 ≤ q ∧ q ≤ 1)
    (hsum : probs.sum = 1) :
    ∃ m : List (String × ℚ),
      buildProbs probs = Except.ok m ∧
      m.map Prod.fst = risk_category_display ∧
      m.map Prod.snd = probs ∧
      (∀ pr ∈ m, 0 ≤ pr.2 ∧ pr.2 ≤ 1) ∧
      (m.map Prod.snd).sum = 1 := by
  rcases probs with _ | ⟨a, _ | ⟨b, _ | ⟨c, _ | ⟨d, _ | ⟨e, _ | ⟨f, rest⟩⟩⟩⟩⟩⟩ <;>
    simp only [List.length_cons, List.length_nil] at h5 <;> try omega
  refine ⟨[("Non-diabetic", a), ("Low Risk", b), ("Moderate Risk", c),
           ("High Risk", d), ("Critical Risk", e)], rfl, rfl, rfl, ?_, ?_⟩
  · intro pr hpr
    simp only [List.mem_cons, List.not_mem_nil, or_false] at hpr
    rcases hpr with rfl | rfl | rfl | rfl | rfl
    · exact hrange a (by simp)
    · exact hrange b (by simp)
    · exact hrange c (by simp)
    · exact hrange d (by simp)
    · exact hrange e (by simp)
  · exact hsum

/-- Witness for C5 at the example distribution. -/
theorem probabilities_full_distribution_witness :
    ∃ m : List (String × ℚ),
      buildProbs exampleProbs = Except.ok m ∧
      m.map Prod.fst = risk_category_display ∧
      m.map Prod.snd = exampleProbs ∧
      (∀ pr ∈ m, 0 ≤ pr.2 ∧ pr.2 ≤ 1) ∧
      (m.map Prod.snd).sum = 1 :=
  probabilities_full_distribution exampleProbs (by rfl)
    (by
      intro q hq
      simp only [exampleProbs, List.mem_cons, List.not_mem_nil, or_false] at hq
      rcases hq with rfl | rfl | rfl | rfl | rfl <;> norm_num)
    (by norm_num [exampleProbs, List.sum_cons, List.sum_nil])

/-- C8: a raw request body that fails validation (a field missing or not
coercible to its declared type) is answered with the validation error and
no inference stage runs: the outcome is the same for every model
artifact, and a non-numeric `age` always fails validation. -/
theorem validation_error_blocks_inference (r : RawInput) (v : ValidationFailure)
    (m : ModelArtifact) (h : parseDiabetesInput r = Except.error v) :
    handleRequest m r = Except.error ApiError.validationError ∧
    (∀ m₂ : ModelArtifact, handleRequest m r = handleRequest m₂ r) ∧
    (∀ r₂ : RawInput, r₂.age = RawField.nonNumeric →
      ∃ v₂, parseDiabetesInput r₂ = Except.error v₂) := by
  refine ⟨?_, ?_, ?_⟩
  · simp [handleRequest, h]
  · intro m₂
    simp [handleRequest, h]
  · intro r₂ h₂
    refine ⟨⟨"age"⟩, ?_⟩
    unfold parseDiabetesInput
    rw [show coerceFloat "age" r₂.age = Except.error ⟨"age"⟩ from by rw [h₂]; rfl]
    rfl

/-- Witness for C8 at a body whose `age` is a non-numeric string. -/
theorem validation_error_blocks_inference_witness :
    handleRequest stubArtifact malformedInput = Except.error ApiError.validationError :=
  (validation_error_blocks_inference malformedInput ⟨"age"⟩ stubArtifact (by rfl)).1

end Glucogard
